import Mathlib

/-!
Verification of the `bmm_crr_add` operator-construction subsystem
(`python/aitemplate/compiler/ops/gemm_universal/bmm_crr_add.py`).

The file embeds the data model (Tensor, TensorAccessor, operator attribute
record, a registry of built nodes) and the operations the claims are about:
the shape-inference engine of the parent `bmm_crr` family, the broadcast
validator exposed through `bmm.is_valid_inputs`, the static probe
`bmm_crr_add.is_valid_inputs`, and the construction entry point
`bmm_crr_add.__call__`.  Dimension extents are concrete natural numbers
(symbolic dimensions are out of scope).  Fallible operations return
`Except BuildError`.
-/

/-- A tensor descriptor: an ordered shape and an optional reference (by
registry index) to the node that produced it; `none` for graph inputs. -/
structure Tensor where
  shape : List Nat
  producerId : Option Nat
deriving Repr, DecidableEq

/-- A tensor accessor wraps the tensor it views; the view metadata is
derived from the tensor at construction. -/
structure TensorAccessor where
  tensor : Tensor
deriving Repr, DecidableEq

/-- The attribute record of an operator node: operator tag, fused-epilogue
flag, ordered inputs, one accessor per input, and topological depth. -/
structure Attrs where
  op : String
  has_d : Bool
  inputs : List Tensor
  input_accessors : List TensorAccessor
  depth : Nat
deriving Repr, DecidableEq

/-- The registry of already-built operator nodes; a tensor's `producerId`
indexes into `nodes`. -/
structure Graph where
  nodes : List Attrs
deriving Repr, DecidableEq

/-- Errors of the construction protocol. -/
inductive BuildError where
  | shapeMismatch (v1 v2 : Nat)
  | invalidAuxiliaryOperand (axis e1 e2 : Nat)
deriving Repr, DecidableEq

/-- Failure detail of the broadcast validator: the mismatching axis with the
two conflicting extents, or an auxiliary rank exceeding the output rank. -/
inductive BroadcastFailure where
  | axisMismatch (axis oExt cExt : Nat)
  | rankExceeded (oRank cRank : Nat)
deriving Repr, DecidableEq

/-- Whether a fallible result is a success. -/
def isOkB {ε α : Type} : Except ε α → Bool
  | Except.ok _ => true
  | Except.error _ => false

/-- Whether a fallible result is a `shapeMismatch` error. -/
def isShapeMismatchB {α : Type} : Except BuildError α → Bool
  | Except.error (BuildError.shapeMismatch _ _) => true
  | _ => false

/-- Whether a fallible result is an `invalidAuxiliaryOperand` error. -/
def isInvalidAuxB {α : Type} : Except BuildError α → Bool
  | Except.error (BuildError.invalidAuxiliaryOperand _ _ _) => true
  | _ => false

/-- Modelled from the spec (the `bmm_crr._infer_shapes` engine is not under
`src/`): both operands must have rank 3, their batch extents must match and
their contraction extents must match; A = (Batch, K, M) is read transposed
against B = (Batch, K, N) and the output shape is (Batch, M, N).  On
conflict a `shapeMismatch` error names the two values in conflict. -/
def bmm_crr._infer_shapes (a b : Tensor) : Except BuildError (List Nat) :=
  if a.shape.length = 3 then
    if b.shape.length = 3 then
      if a.shape.getD 0 0 = b.shape.getD 0 0 then
        if a.shape.getD 1 0 = b.shape.getD 1 0 then
          Except.ok [a.shape.getD 0 0, a.shape.getD 2 0, b.shape.getD 2 0]
        else Except.error (BuildError.shapeMismatch (a.shape.getD 1 0) (b.shape.getD 1 0))
      else Except.error (BuildError.shapeMismatch (a.shape.getD 0 0) (b.shape.getD 0 0))
    else Except.error (BuildError.shapeMismatch b.shape.length 3)
  else Except.error (BuildError.shapeMismatch a.shape.length 3)

/-- Walk two reversed shapes from the rightmost dimension; report the first
incompatible aligned pair as (position from the right, output extent,
candidate extent). -/
def alignCheckRev : List Nat → List Nat → Option (Nat × Nat × Nat)
  | _, [] => none
  | [], _ :: _ => none
  | oe :: os, ce :: cs =>
    if oe = ce ∨ oe = 1 ∨ ce = 1 then
      match alignCheckRev os cs with
      | none => none
      | some (i, x, y) => some (i + 1, x, y)
    else some (0, oe, ce)

/-- Modelled from the spec (the BroadcastValidator in `bmm.py` is not under
`src/`): align the candidate shape `c` with the output shape `o` from the
rightmost dimension; every aligned pair must be equal or have one side of
extent 1, and `c` may have fewer leading dimensions than `o`.  On failure
the mismatching axis (indexed in `o`) and the two conflicting extents are
reported. -/
def validate_broadcast (o c : List Nat) : Except BroadcastFailure Unit :=
  if o.length < c.length then
    Except.error (BroadcastFailure.rankExceeded o.length c.length)
  else
    match alignCheckRev o.reverse c.reverse with
    | none => Except.ok ()
    | some (i, x, y) => Except.error (BroadcastFailure.axisMismatch (o.length - 1 - i) x y)

/-- Modelled from the spec (`bmm.is_valid_inputs` is not under `src/`): the
plain-boolean form of the broadcast validator. -/
def bmm.is_valid_inputs (output_shapes c_shapes : List Nat) : Bool :=
  isOkB (validate_broadcast output_shapes c_shapes)

/-- Depth contributed by a tensor's producer: the depth of the producing
node in the registry, or 0 when the tensor has no producer. -/
def producerDepth (g : Graph) (t : Tensor) : Nat :=
  match t.producerId with
  | none => 0
  | some i =>
    match g.nodes.get? i with
    | none => 0
    | some n => n.depth

/-- Modelled from the spec (`Operator._set_depth` is not under `src/`):
recompute the node's depth from its current input list as 1 plus the
maximum producer depth over all inputs (a producerless input contributes
0), or 0 when the input list is empty. -/
def set_depth (g : Graph) (a : Attrs) : Attrs :=
  if a.inputs.isEmpty then { a with depth := 0 }
  else { a with depth := 1 + (a.inputs.map (producerDepth g)).foldl Nat.max 0 }

/-- The attribute record produced by `bmm_crr_add.__init__`: the parent
constructor runs first, then `op` is set to "bmm_crr_add" and `has_d` to
true. -/
def bmm_crr_add.initAttrs : Attrs :=
  { op := "bmm_crr_add", has_d := true, inputs := [], input_accessors := [], depth := 0 }

/-- The static probe `bmm_crr_add.is_valid_inputs` (from `src/`): run the
shape inference of a freshly constructed temporary `bmm_crr` instance on A
and B — propagating its error if the primary shapes are incompatible — and
return the boolean broadcast verdict of `bmm.is_valid_inputs` on the
inferred output shape against C's shape.  The registry is threaded through
untouched: the probe allocates only the temporary instance. -/
def bmm_crr_add.is_valid_inputsS (g : Graph) (A B C : Tensor) :
    (Except BuildError Bool) × Graph :=
  match bmm_crr._infer_shapes A B with
  | Except.error e => (Except.error e, g)
  | Except.ok output_shapes => (Except.ok (bmm.is_valid_inputs output_shapes C.shape), g)

/-- The construction entry point `bmm_crr_add.__call__` (from `src/`).
Stage 1 (the parent `super().__call__(a, b)`, modelled from the spec): run
`bmm_crr._infer_shapes` on a and b, build the node with inputs [a, b], one
accessor per input, recomputed depth, and allocate the output tensor whose
producer reference is the new node.  Then, as in the source: append c to
the node's inputs, rebuild the accessor list from scratch over the full
input list, recompute the depth, and return the output.  On success the
finished node is registered; on error the registry is returned unchanged. -/
def bmm_crr_add.call (g : Graph) (a b c : Tensor) :
    (Except BuildError (Attrs × Tensor)) × Graph :=
  match bmm_crr._infer_shapes a b with
  | Except.error e => (Except.error e, g)
  | Except.ok oshape =>
    let nodeId := g.nodes.length
    let node1 := set_depth g
      { bmm_crr_add.initAttrs with
        inputs := [a, b],
        input_accessors := [TensorAccessor.mk a, TensorAccessor.mk b] }
    let output : Tensor := { shape := oshape, producerId := some nodeId }
    let node2 := { node1 with inputs := node1.inputs ++ [c] }
    let node3 := { node2 with input_accessors := node2.inputs.map TensorAccessor.mk }
    let node4 := set_depth g node3
    (Except.ok (node4, output), { nodes := g.nodes ++ [node4] })

section Examples

/-- An empty node registry. -/
def g0 : Graph := { nodes := [] }

/-- End-to-end example operand A of shape (4, 16, 32). -/
def tA : Tensor := { shape := [4, 16, 32], producerId := none }

/-- End-to-end example operand B of shape (4, 16, 64). -/
def tB : Tensor := { shape := [4, 16, 64], producerId := none }

/-- End-to-end example bias C of shape (32, 64), broadcast against (4, 32, 64). -/
def tC : Tensor := { shape := [32, 64], producerId := none }

/-- The node built by the end-to-end example. -/
def exAttrs : Attrs :=
  { op := "bmm_crr_add", has_d := true, inputs := [tA, tB, tC],
    input_accessors := [TensorAccessor.mk tA, TensorAccessor.mk tB, TensorAccessor.mk tC],
    depth := 1 }

/-- The output tensor of the end-to-end example. -/
def exOut : Tensor := { shape := [4, 32, 64], producerId := some 0 }

/-- Operand A of shape (2, 5, 4) for the invalid-bias examples. -/
def invA : Tensor := { shape := [2, 5, 4], producerId := none }

/-- Operand B of shape (2, 5, 8) for the invalid-bias examples. -/
def invB : Tensor := { shape := [2, 5, 8], producerId := none }

/-- A bias of shape (2, 4, 9) that fails broadcast against (2, 4, 8). -/
def invC : Tensor := { shape := [2, 4, 9], producerId := none }

/-- A bias of shape (3, 4, 8) that fails broadcast against (2, 4, 8). -/
def invC2 : Tensor := { shape := [3, 4, 8], producerId := none }

/-- A registry holding one producer node of depth 2. -/
def gD : Graph :=
  { nodes := [{ op := "producer", has_d := false, inputs := [], input_accessors := [], depth := 2 }] }

/-- Producerless operand A of shape (2, 5, 4) for the depth example. -/
def aD : Tensor := { shape := [2, 5, 4], producerId := none }

/-- Producerless operand B of shape (2, 5, 8) for the depth example. -/
def bD : Tensor := { shape := [2, 5, 8], producerId := none }

/-- Bias of shape (2, 4, 8) produced by the depth-2 node of `gD`. -/
def cD : Tensor := { shape := [2, 4, 8], producerId := some 0 }

/-- The node built from `aD`, `bD`, `cD` over `gD`. -/
def d7Attrs : Attrs :=
  { op := "bmm_crr_add", has_d := true, inputs := [aD, bD, cD],
    input_accessors := [TensorAccessor.mk aD, TensorAccessor.mk bD, TensorAccessor.mk cD],
    depth := 3 }

/-- The output tensor built from `aD`, `bD` over `gD`. -/
def d7Out : Tensor := { shape := [2, 4, 8], producerId := some 1 }

/-- Operand A of shape (2, 7, 4) for the broadcast case table. -/
def pA4 : Tensor := { shape := [2, 7, 4], producerId := none }

/-- Operand B of shape (2, 7, 8) for the broadcast case table. -/
def pB4 : Tensor := { shape := [2, 7, 8], producerId := none }

end Examples

/-- On success, `bmm_crr_add.call` returns the node built over the full
input list [a, b, c] with freshly rebuilt accessors and recomputed depth,
and the output tensor carrying the inferred shape and a producer reference
to the newly registered node. -/
lemma call_ok_inv (g : Graph) (a b c : Tensor) (attrs : Attrs) (out : Tensor)
    (h : (bmm_crr_add.call g a b c).1 = Except.ok (attrs, out)) :
    bmm_crr._infer_shapes a b = Except.ok out.shape ∧
    attrs.inputs = [a, b, c] ∧
    attrs.input_accessors = [a, b, c].map TensorAccessor.mk ∧
    attrs.depth = 1 + Nat.max (producerDepth g a) (Nat.max (producerDepth g b) (producerDepth g c)) ∧
    out.producerId = some g.nodes.length ∧
    (bmm_crr_add.call g a b c).2 = { nodes := g.nodes ++ [attrs] } := by
  cases hinf : bmm_crr._infer_shapes a b with
  | error e => simp [bmm_crr_add.call, hinf] at h
  | ok s =>
    simp only [bmm_crr_add.call, hinf, Except.ok.injEq, Prod.mk.injEq] at h
    obtain ⟨h1, h2⟩ := h
    subst h1
    subst h2
    refine ⟨rfl, ?_, ?_, ?_, rfl, ?_⟩
    · simp [set_depth, bmm_crr_add.initAttrs]
    · simp [set_depth, bmm_crr_add.initAttrs]
    · simp [set_depth, bmm_crr_add.initAttrs, Nat.zero_max, Nat.max_assoc]
    · simp [bmm_crr_add.call, hinf]

/-- Claim C3: for rank-3 operands A = (Batch, K, M) and B = (Batch, K, N)
with equal Batch and equal K extents and any auxiliary operand C whose
shape passes broadcast validation against (Batch, M, N), construction
succeeds and the returned output tensor has shape exactly (Batch, M, N). -/
theorem claim3_valid_shapes_build_succeeds (g : Graph) (a b c : Tensor) (Bt K M N : Nat)
    (ha : a.shape = [Bt, K, M]) (hb : b.shape = [Bt, K, N])
    (_hc : isOkB (validate_broadcast [Bt, M, N] c.shape) = true) :
    isOkB ((bmm_crr_add.call g a b c).1) = true ∧
    ((bmm_crr_add.call g a b c).1).map (fun p => p.2.shape) = Except.ok [Bt, M, N] := by
  have hinf : bmm_crr._infer_shapes a b = Except.ok [Bt, M, N] := by
    simp [bmm_crr._infer_shapes, ha, hb]
  constructor
  · simp [bmm_crr_add.call, hinf, isOkB]
  · simp [bmm_crr_add.call, hinf, Except.map]

/-- Claim C3 witness: the end-to-end example A = (4, 16, 32),
B = (4, 16, 64), C = (32, 64) builds and the output has shape (4, 32, 64). -/
theorem claim3_witness :
    isOkB ((bmm_crr_add.call g0 tA tB tC).1) = true ∧
    ((bmm_crr_add.call g0 tA tB tC).1).map (fun p => p.2.shape) = Except.ok [4, 32, 64] :=
  claim3_valid_shapes_build_succeeds g0 tA tB tC 4 16 32 64 rfl rfl rfl

/-- Claim C5: whenever the primary operands have a rank other than 3 or
disagree on the Batch extent or on the contraction extent K, construction
fails with a `shapeMismatch` error and the node registry is unchanged —
no node or output tensor is created. -/
theorem claim5_shape_mismatch_fails (g : Graph) (a b c : Tensor)
    (h : a.shape.length ≠ 3 ∨ b.shape.length ≠ 3 ∨
      a.shape.getD 0 0 ≠ b.shape.getD 0 0 ∨ a.shape.getD 1 0 ≠ b.shape.getD 1 0) :
    isShapeMismatchB ((bmm_crr_add.call g a b c).1) = true ∧
    (bmm_crr_add.call g a b c).2 = g := by
  have hinf : ∃ x y, bmm_crr._infer_shapes a b = Except.error (BuildError.shapeMismatch x y) := by
    unfold bmm_crr._infer_shapes
    split_ifs with h1 h2 h3 h4
    · rcases h with h | h | h | h <;> [exact absurd h1 h; exact absurd h2 h;
        exact absurd h3 h; exact absurd h4 h]
    · exact ⟨_, _, rfl⟩
    · exact ⟨_, _, rfl⟩
    · exact ⟨_, _, rfl⟩
    · exact ⟨_, _, rfl⟩
  obtain ⟨x, y, hxy⟩ := hinf
  constructor
  · simp [bmm_crr_add.call, hxy, isShapeMismatchB]
  · simp [bmm_crr_add.call, hxy]

/-- Claim C5 witness: with A = (2, 5, 4) and B = (3, 5, 8) the Batch
extents disagree, so construction fails with a `shapeMismatch` error and
the registry stays empty. -/
theorem claim5_witness :
    isShapeMismatchB ((bmm_crr_add.call g0 invA (Tensor.mk [3, 5, 8] none) invC).1) = true ∧
    (bmm_crr_add.call g0 invA (Tensor.mk [3, 5, 8] none) invC).2 = g0 :=
  claim5_shape_mismatch_fails g0 invA (Tensor.mk [3, 5, 8] none) invC (by decide)

/-- Claim C6: after every successful construction the accessor list has
been rebuilt from scratch over the full three-element input list in input
order: there are exactly three inputs and three accessors and the accessor
at each index views the input tensor at the same index. -/
theorem claim6_accessors_rebuilt (g : Graph) (a b c : Tensor) (attrs : Attrs) (out : Tensor)
    (h : (bmm_crr_add.call g a b c).1 = Except.ok (attrs, out)) :
    attrs.input_accessors = attrs.inputs.map TensorAccessor.mk ∧
    attrs.inputs.length = 3 ∧ attrs.input_accessors.length = 3 ∧
    attrs.input_accessors.map TensorAccessor.tensor = attrs.inputs := by
  obtain ⟨-, hin, hacc, -, -, -⟩ := call_ok_inv g a b c attrs out h
  refine ⟨?_, ?_, ?_, ?_⟩ <;> simp [hin, hacc]

/-- Claim C6 witness: the end-to-end example node has inputs
[tA, tB, tC], three accessors rebuilt over them in order, and each
accessor views the input at its own index. -/
theorem claim6_witness :
    exAttrs.input_accessors = exAttrs.inputs.map TensorAccessor.mk ∧
    exAttrs.inputs.length = 3 ∧ exAttrs.input_accessors.length = 3 ∧
    exAttrs.input_accessors.map TensorAccessor.tensor = exAttrs.inputs :=
  claim6_accessors_rebuilt g0 tA tB tC exAttrs exOut rfl

/-- Claim C7: after every successful construction the node's depth equals
1 plus the maximum producer depth over the three inputs, a producerless
input contributing 0. -/
theorem claim7_depth_final (g : Graph) (a b c : Tensor) (attrs : Attrs) (out : Tensor)
    (h : (bmm_crr_add.call g a b c).1 = Except.ok (attrs, out)) :
    attrs.depth =
      1 + Nat.max (producerDepth g a) (Nat.max (producerDepth g b) (producerDepth g c)) :=
  (call_ok_inv g a b c attrs out h).2.2.2.1

/-- Claim C7 witness: with producerless A and B (producer depths 0 and 0)
and C produced by the depth-2 node of `gD`, the finished node has depth 3. -/
theorem claim7_witness : d7Attrs.depth = 3 :=
  claim7_depth_final gD aD bD cD d7Attrs d7Out rfl

/-- Claim C9: every successful construction returns the primary output
tensor of the two-operand stage — its shape is the inferred primary shape
and its producer reference is the newly registered node — while the
auxiliary operand C is consumed as the third input and is never the
returned tensor. -/
theorem claim9_returns_primary_output (g : Graph) (a b c : Tensor) (attrs : Attrs) (out : Tensor)
    (h : (bmm_crr_add.call g a b c).1 = Except.ok (attrs, out))
    (hc : ∀ i, c.producerId = some i → i < g.nodes.length) :
    out.producerId = some g.nodes.length ∧
    ((bmm_crr_add.call g a b c).2).nodes.get? g.nodes.length = some attrs ∧
    attrs.inputs = [a, b, c] ∧
    out ≠ c ∧
    bmm_crr._infer_shapes a b = Except.ok out.shape := by
  obtain ⟨hsh, hin, -, -, hpid, hg⟩ := call_ok_inv g a b c attrs out h
  refine ⟨hpid, ?_, hin, ?_, hsh⟩
  · rw [hg]
    simp [List.get?_eq_getElem?, List.getElem?_concat_length]
  · intro heq
    have hcpid : c.producerId = some g.nodes.length := by rw [← heq, hpid]
    exact absurd (hc g.nodes.length hcpid) (Nat.lt_irrefl g.nodes.length)

/-- Claim C9 witness: over registry `gD` the construction from `aD`, `bD`,
`cD` returns the stage-1 output tensor (shape (2, 4, 8), producer the new
node at index 1), consumes `cD` as the third input, and does not return it. -/
theorem claim9_witness :
    d7Out.producerId = some gD.nodes.length ∧
    ((bmm_crr_add.call gD aD bD cD).2).nodes.get? gD.nodes.length = some d7Attrs ∧
    d7Attrs.inputs = [aD, bD, cD] ∧
    d7Out ≠ cD ∧
    bmm_crr._infer_shapes aD bD = Except.ok d7Out.shape :=
  claim9_returns_primary_output gD aD bD cD d7Attrs d7Out rfl
    (by intro i hi; simp [cD] at hi; simp [gD]; omega)

/-- Claim C1 counterexample: with A = (2, 5, 4), B = (2, 5, 8) the inferred
output shape is (2, 4, 8) and C = (2, 4, 9) fails broadcast validation
against it, yet the construction entry point succeeds — no
`invalidAuxiliaryOperand` error is raised and a node is registered. -/
theorem claim1_counterexample :
    bmm_crr._infer_shapes invA invB = Except.ok [2, 4, 8] ∧
    isOkB (validate_broadcast [2, 4, 8] invC.shape) = false ∧
    isOkB ((bmm_crr_add.call g0 invA invB invC).1) = true ∧
    ((bmm_crr_add.call g0 invA invB invC).2).nodes.length = g0.nodes.length + 1 :=
  ⟨rfl, rfl, rfl, rfl⟩

/-- Claim C1 as amended: the construction entry point performs no broadcast
validation of the auxiliary operand — whenever the primary shapes are
compatible, construction succeeds even for an auxiliary shape that fails
broadcast validation, never raising `invalidAuxiliaryOperand`, and the
node is created with C appended unvalidated. -/
theorem claim1_build_ignores_invalid_aux (g : Graph) (a b c : Tensor) (s : List Nat)
    (h1 : bmm_crr._infer_shapes a b = Except.ok s)
    (_h2 : isOkB (validate_broadcast s c.shape) = false) :
    isOkB ((bmm_crr_add.call g a b c).1) = true ∧
    isInvalidAuxB ((bmm_crr_add.call g a b c).1) = false ∧
    ((bmm_crr_add.call g a b c).1).map (fun p => p.1.inputs) = Except.ok [a, b, c] := by
  refine ⟨?_, ?_, ?_⟩ <;>
    simp [bmm_crr_add.call, h1, isOkB, isInvalidAuxB, Except.map, set_depth,
      bmm_crr_add.initAttrs]

/-- Claim C1 amended witness: at A = (2, 5, 4), B = (2, 5, 8),
C = (2, 4, 9) the broadcast-invalid bias is accepted unvalidated. -/
theorem claim1_witness :
    isOkB ((bmm_crr_add.call g0 invA invB invC).1) = true ∧
    isInvalidAuxB ((bmm_crr_add.call g0 invA invB invC).1) = false ∧
    ((bmm_crr_add.call g0 invA invB invC).1).map (fun p => p.1.inputs)
      = Except.ok [invA, invB, invC] :=
  claim1_build_ignores_invalid_aux g0 invA invB invC [2, 4, 8] rfl rfl

/-- Claim C2 counterexample: at A = (2, 5, 4), B = (2, 5, 8),
C = (3, 4, 8) the static probe returns false, yet the construction entry
point succeeds — the claimed equivalence fails. -/
theorem claim2_counterexample :
    (bmm_crr_add.is_valid_inputsS g0 invA invB invC2).1 = Except.ok false ∧
    isOkB ((bmm_crr_add.call g0 invA invB invC2).1) = true :=
  ⟨rfl, rfl⟩

/-- Claim C2 as amended: if the static probe returns true then construction
succeeds, but the converse fails — construction succeeds exactly when the
primary two-operand shape inference succeeds, regardless of the auxiliary
operand's broadcast verdict. -/
theorem claim2_probe_implies_build (g : Graph) (A B C : Tensor) :
    ((bmm_crr_add.is_valid_inputsS g A B C).1 = Except.ok true →
      isOkB ((bmm_crr_add.call g A B C).1) = true) ∧
    isOkB ((bmm_crr_add.call g A B C).1) = isOkB (bmm_crr._infer_shapes A B) := by
  cases hinf : bmm_crr._infer_shapes A B with
  | error e =>
    constructor
    · intro hp
      simp [bmm_crr_add.is_valid_inputsS, hinf] at hp
    · simp [bmm_crr_add.call, hinf, isOkB]
  | ok s =>
    constructor
    · intro _
      simp [bmm_crr_add.call, hinf, isOkB]
    · simp [bmm_crr_add.call, hinf, isOkB]

/-- Claim C2 amended witness: on the end-to-end example the probe returns
true and construction indeed succeeds. -/
theorem claim2_witness :
    (bmm_crr_add.is_valid_inputsS g0 tA tB tC).1 = Except.ok true ∧
    isOkB ((bmm_crr_add.call g0 tA tB tC).1) = true :=
  ⟨rfl, (claim2_probe_implies_build g0 tA tB tC).1 rfl⟩

/-- Claim C4: for the inferred output shape (2, 4, 8) (from A = (2, 7, 4),
B = (2, 7, 8)) the probe accepts the exact match (2, 4, 8) and the
broadcastable shapes (1, 4, 8), (4, 8) and (8), rejects (2, 4, 9) and
(3, 4, 8), and the validator reports the mismatching axis with the two
conflicting extents. -/
theorem claim4_broadcast_cases :
    (bmm_crr_add.is_valid_inputsS g0 pA4 pB4 (Tensor.mk [2, 4, 8] none)).1 = Except.ok true ∧
    (bmm_crr_add.is_valid_inputsS g0 pA4 pB4 (Tensor.mk [1, 4, 8] none)).1 = Except.ok true ∧
    (bmm_crr_add.is_valid_inputsS g0 pA4 pB4 (Tensor.mk [4, 8] none)).1 = Except.ok true ∧
    (bmm_crr_add.is_valid_inputsS g0 pA4 pB4 (Tensor.mk [8] none)).1 = Except.ok true ∧
    (bmm_crr_add.is_valid_inputsS g0 pA4 pB4 (Tensor.mk [2, 4, 9] none)).1 = Except.ok false ∧
    (bmm_crr_add.is_valid_inputsS g0 pA4 pB4 (Tensor.mk [3, 4, 8] none)).1 = Except.ok false ∧
    validate_broadcast [2, 4, 8] [2, 4, 9]
      = Except.error (BroadcastFailure.axisMismatch 2 8 9) ∧
    validate_broadcast [2, 4, 8] [3, 4, 8]
      = Except.error (BroadcastFailure.axisMismatch 0 2 3) :=
  ⟨rfl, rfl, rfl, rfl, rfl, rfl, rfl, rfl⟩

/-- Claim C8: the static probe mutates nothing — the registry it returns is
the one it was given — and a repeated call with the same immutable tensor
arguments returns the identical result. -/
theorem claim8_probe_idempotent (g : Graph) (A B C : Tensor) :
    (bmm_crr_add.is_valid_inputsS g A B C).2 = g ∧
    (bmm_crr_add.is_valid_inputsS (bmm_crr_add.is_valid_inputsS g A B C).2 A B C).1
      = (bmm_crr_add.is_valid_inputsS g A B C).1 := by
  cases hinf : bmm_crr._infer_shapes A B <;>
    simp [bmm_crr_add.is_valid_inputsS, hinf]

/-- Claim C10: the static probe works on a fresh temporary instance, so its
verdict reads nothing from the registry of already-built nodes — it is the
same over any two registries — and it writes nothing: the registry it
returns is exactly the one it was given. -/
theorem claim10_probe_frame (g h : Graph) (A B C : Tensor) :
    (bmm_crr_add.is_valid_inputsS g A B C).1 = (bmm_crr_add.is_valid_inputsS h A B C).1 ∧
    (bmm_crr_add.is_valid_inputsS g A B C).2 = g := by
  cases hinf : bmm_crr._infer_shapes A B <;>
    simp [bmm_crr_add.is_valid_inputsS, hinf]
